import Mathlib

/-!
Shallow embedding of `src/dssprojectapp/app.py`, a single-file Streamlit
dashboard that loads a CSV of Amazon reviews, annotates each row with a
TextBlob polarity score and a three-way sentiment label, and renders
summary metrics, tables and charts.

Modelling conventions:
* a pandas DataFrame row is a `Row`; a row after lines 39-42 of the source
  is an `AnnRow` (with the `sentiment_score` and `sentiment` columns);
* a possibly-missing cell (pandas NaN) is an `Option`; Python's `str(x)`
  on a NaN cell yields the string "nan", modelled by `pyStr`;
* machine floats are modelled by `ℚ`; Python's `round(x, n)` (and
  pandas `.round(n)`) round half to even, modelled by `pyRound`/`round_to`;
* the external TextBlob scorer is an opaque parameter
  `polarity : String → ℚ` of the pipeline, per the spec's note that any
  off-the-shelf polarity scorer may be substituted.
-/

/-- A raw review row of the uploaded CSV: the columns the script touches
(`Score`, `Text`, `ProfileName`, `Summary`, and the `date` derived from
`Time`).  `Text` and `time` may be missing (NaN); a missing `Text` is
coerced by `str` before scoring. -/
structure Row where
  score : ℚ
  text : Option String
  profileName : String
  summary : String
  time : Option ℤ
deriving DecidableEq, Repr

/-- A row after sentiment annotation (lines 39-42 of app.py): the raw row
plus the `sentiment_score` and `sentiment` columns. -/
structure AnnRow extends Row where
  sentiment_score : ℚ
  sentiment : String
deriving DecidableEq, Repr

/-- Python's `str(x)` applied to a cell that is either a string or NaN:
`str(nan)` is the string "nan". -/
def pyStr : Option String → String
  | none => "nan"
  | some s => s

/-- The label map of app.py line 41:
`'Positive' if x > 0.1 else ('Negative' if x < -0.1 else 'Neutral')`. -/
def sentimentLabel (x : ℚ) : String :=
  if x > 1/10 then "Positive" else if x < -(1/10) then "Negative" else "Neutral"

/-- Lines 39-42 of app.py for a single row: score `str(x)` with the
polarity scorer, then derive the label from the score. -/
def annotateRow (polarity : String → ℚ) (r : Row) : AnnRow :=
  { r with
    sentiment_score := polarity (pyStr r.text)
    sentiment := sentimentLabel (polarity (pyStr r.text)) }

/-- Lines 39-42 of app.py for the whole table: the column-wise `apply` is
a per-row map. -/
def annotate (polarity : String → ℚ) (df : List Row) : List AnnRow :=
  df.map (annotateRow polarity)

/-- Python's `round` to an integer: round half to even (banker's
rounding), as used by `round(x, n)` and pandas `.round(n)`. -/
def pyRound (x : ℚ) : ℤ :=
  if x - ⌊x⌋ < 1/2 then ⌊x⌋
  else if x - ⌊x⌋ > 1/2 then ⌊x⌋ + 1
  else if ⌊x⌋ % 2 = 0 then ⌊x⌋ else ⌊x⌋ + 1

/-- Python's `round(x, nd)` / pandas `.round(nd)`. -/
def round_to (nd : ℕ) (x : ℚ) : ℚ :=
  (pyRound (x * 10 ^ nd) : ℚ) / 10 ^ nd

/-- pandas `Series.mean()`: NaN (here `none`) on an empty column,
otherwise the arithmetic mean. -/
def seriesMean (l : List ℚ) : Option ℚ :=
  if l = [] then none else some (l.sum / (l.length : ℚ))

/-- Line 49 of app.py: `total_reviews = len(df)`. -/
def total_reviews (df : List AnnRow) : ℕ := df.length

/-- Line 50 of app.py: `avg_rating = round(df['Score'].mean(), 2)`;
`none` models the NaN produced on an empty table (Python's `round`
returns NaN unchanged). -/
def avg_rating (df : List AnnRow) : Option ℚ :=
  (seriesMean (df.map (fun r => r.score))).map (round_to 2)

/-- One entry of `df['sentiment'].value_counts()` (line 51): the number
of rows carrying the given label. -/
def countLabel (df : List AnnRow) (lab : String) : ℕ :=
  (df.filter (fun r => r.sentiment = lab)).length

/-- Lines 52 and 57-58 of app.py: `sentiment_pct.get(lab, 0)` where
`sentiment_pct = (sentiment_counts / total_reviews * 100).round(1)`.
`value_counts` only lists labels that occur, so a label with count 0 is
absent from the series and `get` returns the default 0. -/
def sentiment_pct_get (df : List AnnRow) (lab : String) : ℚ :=
  if countLabel df lab = 0 then 0
  else round_to 1 ((countLabel df lab : ℚ) / (df.length : ℚ) * 100)

/-- Stable insertion of `a` into a list sorted descending by `key`:
`a` goes before the first element whose key is not larger.  Stability:
on ties the earlier (already-present) elements stay in front only when
they come first in the original list, which `sortByKeyDesc`'s `foldr`
shape guarantees. -/
def insertByKey {α : Type} (key : α → ℤ) (a : α) : List α → List α
  | [] => [a]
  | b :: l => if key b ≤ key a then a :: b :: l else b :: insertByKey key a l

/-- Stable sort, descending by `key`; models pandas' descending,
first-occurrence-stable ordering of `value_counts` and `nlargest`. -/
def sortByKeyDesc {α : Type} (key : α → ℤ) : List α → List α
  | [] => []
  | a :: l => insertByKey key a (sortByKeyDesc key l)

/-- The distinct values of a column in order of first appearance (the
index of pandas `value_counts` before sorting). -/
def firstOccs : List String → List String
  | [] => []
  | a :: l => a :: firstOccs (l.filter (fun b => b ≠ a))
termination_by l => l.length
decreasing_by
  simp only [List.length_cons]
  exact Nat.lt_succ_of_le (List.length_filter_le _ _)

/-- pandas `Series.value_counts()`: one `(value, count)` pair per
distinct value, counts descending, ties in stable first-appearance
order. -/
def value_counts (l : List String) : List (String × ℕ) :=
  sortByKeyDesc (fun p => (p.2 : ℤ)) ((firstOccs l).map (fun a => (a, l.count a)))

/-- Line 117 of app.py: `df['ProfileName'].value_counts().nlargest(10)`.
On a series already sorted descending, `nlargest(10)` keeps the first
ten entries. -/
def top_users (df : List AnnRow) : List (String × ℕ) :=
  (value_counts (df.map (fun r => r.profileName))).take 10

/-- The five columns line 92 of app.py selects for the Recent Reviews
table: `df[['Summary', 'Text', 'sentiment', 'Score', 'date']]`. -/
structure DisplayRow where
  summary : String
  text : Option String
  sentiment : String
  score : ℚ
  date : Option ℤ
deriving DecidableEq, Repr

/-- Column selection of line 92 applied to one row. -/
def displayRow (r : AnnRow) : DisplayRow :=
  { summary := r.summary
    text := r.text
    sentiment := r.sentiment
    score := r.score
    date := r.time }

/-- Line 92 of app.py: the Recent Reviews table is
`df[[...]].head(10)` — the first ten rows of the table in upload order,
restricted to the five display columns. -/
def recent_reviews (df : List AnnRow) : List DisplayRow :=
  ((df.map displayRow).take 10)

/-- Modelled from the spec: "a table of the 10 most recent reviews'
summary/text/sentiment/rating/date" — the ten rows with the largest
dates (newest first, ties stable), restricted to the display columns.
This follows the spec's words, for comparison with `recent_reviews`
above, which is translated from the source. -/
def mostRecentTen (df : List AnnRow) : List DisplayRow :=
  (((sortByKeyDesc (fun r => (Row.time r.toRow).getD 0) df).map displayRow).take 10)

/-- The column set of the DataFrame after lines 34-35 of app.py: a
`date` column is added exactly when a `Time` column was uploaded. -/
def columnsAfterLoad (cols : List String) : List String :=
  if "Time" ∈ cols then cols ++ ["date"] else cols

/-- The column set after lines 39-42 of app.py: the two sentiment
columns are always added. -/
def columnsAfterSentiment (cols : List String) : List String :=
  cols ++ ["sentiment_score", "sentiment"]

/-- pandas column selection `df[wanted]`: raises `KeyError` when any
wanted column is absent. -/
def selectCols (cols wanted : List String) : Except String (List String) :=
  if wanted.all (fun c => c ∈ cols) then .ok wanted else .error "KeyError"

/-- Line 92 of app.py at the column level: the Recent Reviews table
selects five columns, `date` among them, unconditionally. -/
def recentReviewsView (cols : List String) : Except String (List String) :=
  selectCols cols ["Summary", "Text", "sentiment", "Score", "date"]

/-- The two possible renderings of the trend section (lines 102-113). -/
inductive TrendView : Type
  | chart : TrendView
  | fallbackMessage : TrendView
deriving DecidableEq, Repr

/-- Lines 102-113 of app.py: a trend chart when the `date` column
exists, else the informational message "No 'Time' column found for
trend visualization.". -/
def trendSection (cols : List String) : TrendView :=
  if "date" ∈ cols then .chart else .fallbackMessage

/-- The post-load rendering order of app.py at the column level:
derive `date` (line 34-35), add the sentiment columns (lines 39-42),
render the Recent Reviews table (line 92) and then the trend section
(lines 102-113).  An exception raised by the column selection aborts
the script before the trend section is reached, as a raised `KeyError`
does in Streamlit. -/
def renderPipeline (cols : List String) : Except String TrendView := do
  let cols2 := columnsAfterSentiment (columnsAfterLoad cols)
  let _ ← recentReviewsView cols2
  pure (trendSection cols2)

/-- Splitting a character list at commas; the empty list is one empty
field, mirroring CSV field structure. -/
def splitCommaChars : List Char → List (List Char)
  | [] => [[]]
  | c :: rest =>
    match splitCommaChars rest with
    | [] => [[c]]
    | f :: fs => if c = ',' then [] :: f :: fs else (c :: f) :: fs

/-- Splitting one CSV line into its comma-separated fields. -/
def splitComma (s : String) : List String :=
  (splitCommaChars s.data).map (fun cs => String.mk cs)

/-- Model of the third-party pandas `read_csv` restricted to the shape
this claim needs: the first line is the header, every further line is a
data row, fields are comma-separated; a file with no lines at all
raises `EmptyDataError`, while a header-only file yields a table with
zero rows. -/
def read_csv (lines : List String) : Except String (List String × List (List String)) :=
  match lines with
  | [] => .error "EmptyDataError"
  | header :: rows => .ok (splitComma header, rows.map splitComma)

/-- Every polarity score is mapped to one of the three labels. -/
theorem sentimentLabel_trichotomy (x : ℚ) :
    sentimentLabel x = "Positive" ∨ sentimentLabel x = "Negative" ∨
      sentimentLabel x = "Neutral" := by
  unfold sentimentLabel
  split_ifs <;> simp

/-- Counting a label on a cons adds one exactly when the head carries it. -/
theorem countLabel_cons (a : AnnRow) (l : List AnnRow) (lab : String) :
    countLabel (a :: l) lab = (if a.sentiment = lab then 1 else 0) + countLabel l lab := by
  by_cases h : a.sentiment = lab <;>
    simp [countLabel, List.filter_cons, h, Nat.add_comm]

/-- C1: for every annotated row, the sentiment label is determined from
the polarity score by fixed thresholds: a score above 0.1 is labelled
Positive, a score below -0.1 is labelled Negative, and any other score
is labelled Neutral. -/
theorem sentiment_label_thresholds (polarity : String → ℚ) (r : Row) :
    ((annotateRow polarity r).sentiment_score > 1/10 →
      (annotateRow polarity r).sentiment = "Positive") ∧
    ((annotateRow polarity r).sentiment_score < -(1/10) →
      (annotateRow polarity r).sentiment = "Negative") ∧
    (-(1/10) ≤ (annotateRow polarity r).sentiment_score →
      (annotateRow polarity r).sentiment_score ≤ 1/10 →
      (annotateRow polarity r).sentiment = "Neutral") := by
  simp only [annotateRow]
  refine ⟨fun h => ?_, fun h => ?_, fun h1 h2 => ?_⟩ <;>
    · unfold sentimentLabel
      split_ifs <;> first | rfl | linarith

/-- Witness for C1 at concrete scores 1, -1 and 0. -/
theorem sentiment_label_thresholds_witness :
    (annotateRow (fun _ => 1)
        { score := 5, text := some "great product", profileName := "a",
          summary := "s", time := none }).sentiment = "Positive" ∧
    (annotateRow (fun _ => -1)
        { score := 1, text := some "terrible, awful", profileName := "a",
          summary := "s", time := none }).sentiment = "Negative" ∧
    (annotateRow (fun _ => 0)
        { score := 3, text := some "it is ok", profileName := "a",
          summary := "s", time := none }).sentiment = "Neutral" :=
  ⟨(sentiment_label_thresholds (fun _ => 1) _).1 (by norm_num [annotateRow]),
   (sentiment_label_thresholds (fun _ => -1) _).2.1 (by norm_num [annotateRow]),
   (sentiment_label_thresholds (fun _ => 0) _).2.2 (by norm_num [annotateRow]) (by norm_num [annotateRow])⟩

/-- C2 (code-bug evidence): on a CSV that parses but has no `Time`
column, the script raises `KeyError` at the Recent Reviews column
selection of line 92 (the `date` column was never created), so it
crashes before the trend section's fallback message can be rendered. -/
theorem missing_time_column_crashes :
    renderPipeline ["Score", "Text", "ProfileName", "Summary"] =
      Except.error "KeyError" := rfl

/-- The three label counts partition every annotated table. -/
theorem countLabel_sum_eq_length (polarity : String → ℚ) (df : List Row) :
    countLabel (annotate polarity df) "Positive" +
      countLabel (annotate polarity df) "Negative" +
      countLabel (annotate polarity df) "Neutral" =
      (annotate polarity df).length := by
  induction df with
  | nil => rfl
  | cons r l ih =>
    simp only [annotate, List.map_cons] at ih ⊢
    rw [countLabel_cons, countLabel_cons, countLabel_cons]
    have hs : (annotateRow polarity r).sentiment =
        sentimentLabel (polarity (pyStr r.text)) := rfl
    simp only [total_reviews, List.length_cons] at ih ⊢
    rcases sentimentLabel_trichotomy (polarity (pyStr r.text)) with h | h | h
    · rw [hs, h, if_pos rfl, if_neg (by decide), if_neg (by decide)]
      omega
    · rw [hs, h, if_neg (by decide), if_pos rfl, if_neg (by decide)]
      omega
    · rw [hs, h, if_neg (by decide), if_neg (by decide), if_pos rfl]
      omega

/-- C3: the per-label sentiment counts partition the table: the counts
of Positive, Negative and Neutral rows sum to the total row count, so
every row receives exactly one label. -/
theorem sentiment_counts_sum (polarity : String → ℚ) (df : List Row) :
    countLabel (annotate polarity df) "Positive" +
      countLabel (annotate polarity df) "Negative" +
      countLabel (annotate polarity df) "Neutral" =
      total_reviews (annotate polarity df) :=
  countLabel_sum_eq_length polarity df

/-- A concrete positive review row, used by witnesses. -/
def sampleRow1 : Row :=
  { score := 5, text := some "great product", profileName := "alice",
    summary := "great", time := some 1303862400 }

/-- A concrete negative review row, used by witnesses. -/
def sampleRow2 : Row :=
  { score := 1, text := some "terrible, awful", profileName := "bob",
    summary := "bad", time := some 1303948800 }

/-- A concrete neutral review row, used by witnesses. -/
def sampleRow3 : Row :=
  { score := 3, text := some "it is ok", profileName := "carol",
    summary := "ok", time := some 1304035200 }

/-- A concrete polarity scorer used by witnesses: positive on the first
sample text, negative on the second, zero elsewhere. -/
def samplePolarity : String → ℚ :=
  fun s => if s = "great product" then 1/2 else if s = "terrible, awful" then -(1/2) else 0

/-- C5: on a non-empty table the reported average rating is the
arithmetic mean of the `Score` column rounded to two decimal places. -/
theorem avg_rating_is_rounded_mean (df : List AnnRow) (h : df ≠ []) :
    avg_rating df =
      some (round_to 2 ((df.map (fun r => r.score)).sum / (df.length : ℚ))) := by
  have hm : df.map (fun r => r.score) ≠ [] := by
    simpa using h
  simp [avg_rating, seriesMean, hm]

/-- Witness for C5: the spec's scenario with ratings 5, 1, 3 has average
rating 3. -/
theorem avg_rating_is_rounded_mean_witness :
    avg_rating (annotate samplePolarity [sampleRow1, sampleRow2, sampleRow3]) = some 3 :=
  (avg_rating_is_rounded_mean _ (by decide)).trans (by
    norm_num [annotate, annotateRow, sampleRow1, sampleRow2, sampleRow3,
      round_to, pyRound])

/-- C8: a header-only CSV loads successfully with zero rows, and every
downstream metric computation is total on the empty table: the row
count is 0, the average rating is NaN (`none`) rather than an
exception, every label count is 0, and every percentage lookup returns
the default 0. -/
theorem empty_file_metrics_safe (polarity : String → ℚ) (lab : String) :
    read_csv ["Score,Text,ProfileName,Summary,Time"] =
      Except.ok (["Score", "Text", "ProfileName", "Summary", "Time"], []) ∧
    annotate polarity [] = [] ∧
    total_reviews (annotate polarity []) = 0 ∧
    avg_rating (annotate polarity []) = none ∧
    countLabel (annotate polarity []) lab = 0 ∧
    sentiment_pct_get (annotate polarity []) lab = 0 :=
  ⟨rfl, rfl, rfl, rfl, rfl, rfl⟩

/-- C9: a row whose text is empty or missing is still scored and
labelled: the cell is coerced to a string before scoring (a missing
cell becomes the string "nan"), the label is one of the three
categories, and an empty text — which a lexicon scorer maps to
polarity 0 — is labelled Neutral rather than raising an error. -/
theorem empty_text_is_scored (polarity : String → ℚ) (r : Row)
    (h0 : polarity "" = 0) :
    (annotateRow polarity r).sentiment_score = polarity (pyStr r.text) ∧
    ((annotateRow polarity r).sentiment = "Positive" ∨
      (annotateRow polarity r).sentiment = "Negative" ∨
      (annotateRow polarity r).sentiment = "Neutral") ∧
    (r.text = none → (annotateRow polarity r).sentiment_score = polarity "nan") ∧
    (r.text = some "" → (annotateRow polarity r).sentiment = "Neutral") := by
  refine ⟨rfl, sentimentLabel_trichotomy _, fun hn => by simp [annotateRow, hn, pyStr], fun he => ?_⟩
  have : pyStr r.text = "" := by rw [he]; rfl
  simp only [annotateRow, this, h0]
  norm_num [sentimentLabel]

/-- Witness for C9: a row with empty text is labelled Neutral under a
scorer that sends the empty string to 0. -/
theorem empty_text_is_scored_witness :
    (annotateRow samplePolarity
        { score := 2, text := some "", profileName := "dave",
          summary := "", time := none }).sentiment = "Neutral" :=
  (empty_text_is_scored samplePolarity _ (by simp [samplePolarity])).2.2.2 rfl

/-- C10: sentiment annotation is a per-row transform with no ordering
dependency: the annotated table is the element-wise image of the rows,
each row's derived score and label depend only on that row's text (so
changing one row's text never changes another row's annotation), and
annotating any permutation of the rows yields the corresponding
permutation of the annotations. -/
theorem annotate_rows_independent (polarity : String → ℚ) (df df' : List Row) :
    (annotate polarity df).length = df.length ∧
    (∀ i (h' : i < (annotate polarity df).length) (h : i < df.length),
      (annotate polarity df).get ⟨i, h'⟩ = annotateRow polarity (df.get ⟨i, h⟩)) ∧
    (∀ r r' : Row, r.text = r'.text →
      (annotateRow polarity r).sentiment_score = (annotateRow polarity r').sentiment_score ∧
      (annotateRow polarity r).sentiment = (annotateRow polarity r').sentiment) ∧
    (df.Perm df' → (annotate polarity df).Perm (annotate polarity df')) := by
  refine ⟨List.length_map df (annotateRow polarity), fun i h' h => ?_,
    fun r r' h => ?_, fun h => h.map (annotateRow polarity)⟩
  · simp [annotate]
  · constructor <;> simp [annotateRow, h]

/-- Witness for C10: annotating two sample rows in swapped order yields
the swapped annotations. -/
theorem annotate_rows_independent_witness :
    (annotate samplePolarity [sampleRow1, sampleRow2]).Perm
      (annotate samplePolarity [sampleRow2, sampleRow1]) :=
  (annotate_rows_independent samplePolarity [sampleRow1, sampleRow2]
      [sampleRow2, sampleRow1]).2.2.2 (List.Perm.swap sampleRow2 sampleRow1 [])

/-- Banker's rounding moves a rational by at most one half. -/
theorem pyRound_close (x : ℚ) : |(pyRound x : ℚ) - x| ≤ 1/2 := by
  have h1 : (⌊x⌋ : ℚ) ≤ x := Int.floor_le x
  have h2 : x < ⌊x⌋ + 1 := Int.lt_floor_add_one x
  unfold pyRound
  split_ifs with hlt hgt heven <;>
    rw [abs_le] <;> constructor <;> push_cast <;> linarith

/-- Rounding to `nd` decimals moves a rational by at most half a unit
in the last place. -/
theorem round_to_close (nd : ℕ) (x : ℚ) :
    |round_to nd x - x| ≤ 1 / (2 * 10 ^ nd) := by
  have hpow : (0:ℚ) < 10 ^ nd := by positivity
  have h := pyRound_close (x * 10 ^ nd)
  have hrw : round_to nd x - x = ((pyRound (x * 10 ^ nd) : ℚ) - x * 10 ^ nd) / 10 ^ nd := by
    unfold round_to
    field_simp
    ring
  rw [hrw, abs_div, abs_of_pos hpow, div_le_div_iff₀ hpow (by positivity)]
  calc |(pyRound (x * 10 ^ nd) : ℚ) - x * 10 ^ nd| * (2 * 10 ^ nd)
      ≤ (1/2) * (2 * 10 ^ nd) := by
        have : (0:ℚ) < 2 * 10 ^ nd := by positivity
        exact mul_le_mul_of_nonneg_right h (le_of_lt this)
    _ = 1 * 10 ^ nd := by ring

/-- Each reported percentage is within one twentieth of the exact
percentage of its label (exactly 0 for an absent label). -/
theorem sentiment_pct_get_close (df : List AnnRow) (lab : String) :
    |sentiment_pct_get df lab -
      (countLabel df lab : ℚ) / (df.length : ℚ) * 100| ≤ 1/20 := by
  unfold sentiment_pct_get
  split_ifs with hc
  · rw [hc]
    norm_num
  · have h := round_to_close 1 ((countLabel df lab : ℚ) / (df.length : ℚ) * 100)
    norm_num at h ⊢
    exact h

/-- C4: on a non-empty table the reported sentiment percentages
(1-decimal roundings of count/total·100, absent labels 0) sum to 100
within a rounding error of at most 0.3. -/
theorem sentiment_pct_sum_close (polarity : String → ℚ) (df : List Row) (h : df ≠ []) :
    |sentiment_pct_get (annotate polarity df) "Positive" +
      sentiment_pct_get (annotate polarity df) "Negative" +
      sentiment_pct_get (annotate polarity df) "Neutral" - 100| ≤ 3/10 := by
  have hlen0 : (annotate polarity df).length ≠ 0 := by
    simpa [annotate, List.length_eq_zero] using h
  have hlen : (0:ℚ) < ((annotate polarity df).length : ℚ) := by
    exact_mod_cast Nat.pos_of_ne_zero hlen0
  have hsum := countLabel_sum_eq_length polarity df
  have hcast : (countLabel (annotate polarity df) "Positive" : ℚ) +
      (countLabel (annotate polarity df) "Negative" : ℚ) +
      (countLabel (annotate polarity df) "Neutral" : ℚ) =
      ((annotate polarity df).length : ℚ) := by
    exact_mod_cast hsum
  have hexact : (countLabel (annotate polarity df) "Positive" : ℚ) /
        ((annotate polarity df).length : ℚ) * 100 +
      (countLabel (annotate polarity df) "Negative" : ℚ) /
        ((annotate polarity df).length : ℚ) * 100 +
      (countLabel (annotate polarity df) "Neutral" : ℚ) /
        ((annotate polarity df).length : ℚ) * 100 = 100 := by
    field_simp
    linarith [hcast]
  have hP := sentiment_pct_get_close (annotate polarity df) "Positive"
  have hN := sentiment_pct_get_close (annotate polarity df) "Negative"
  have hU := sentiment_pct_get_close (annotate polarity df) "Neutral"
  rw [abs_le] at hP hN hU ⊢
  constructor <;> linarith

/-- Witness for C4 on the three-row sample table, whose three
percentages are 33.3 each, summing to 99.9. -/
theorem sentiment_pct_sum_close_witness :
    |sentiment_pct_get (annotate samplePolarity [sampleRow1, sampleRow2, sampleRow3]) "Positive" +
      sentiment_pct_get (annotate samplePolarity [sampleRow1, sampleRow2, sampleRow3]) "Negative" +
      sentiment_pct_get (annotate samplePolarity [sampleRow1, sampleRow2, sampleRow3]) "Neutral" -
      100| ≤ 3/10 :=
  sentiment_pct_sum_close samplePolarity [sampleRow1, sampleRow2, sampleRow3] (by decide)

/-- Membership in a keyed insertion is membership in the inserted
element or the list. -/
theorem mem_insertByKey {α : Type} (key : α → ℤ) (a x : α) (l : List α) :
    x ∈ insertByKey key a l ↔ x = a ∨ x ∈ l := by
  induction l with
  | nil => simp [insertByKey]
  | cons b t ih =>
    unfold insertByKey
    split_ifs with hb
    · simp
    · simp [ih]
      tauto

/-- Keyed insertion into a descending-sorted list stays sorted. -/
theorem insertByKey_sorted {α : Type} (key : α → ℤ) (a : α) (l : List α)
    (h : l.Sorted (fun x y => key y ≤ key x)) :
    (insertByKey key a l).Sorted (fun x y => key y ≤ key x) := by
  induction l with
  | nil => simp [insertByKey]
  | cons b t ih =>
    rw [List.sorted_cons] at h
    unfold insertByKey
    split_ifs with hb
    · rw [List.sorted_cons]
      refine ⟨fun x hx => ?_, List.sorted_cons.mpr h⟩
      rcases List.mem_cons.mp hx with rfl | hx
      · exact hb
      · exact le_trans (h.1 x hx) hb
    · rw [List.sorted_cons]
      refine ⟨fun x hx => ?_, ih h.2⟩
      rcases (mem_insertByKey key a x t).mp hx with rfl | hx
      · exact le_of_not_le hb
      · exact h.1 x hx

/-- The keyed descending sort produces a descending-sorted list. -/
theorem sortByKeyDesc_sorted {α : Type} (key : α → ℤ) (l : List α) :
    (sortByKeyDesc key l).Sorted (fun x y => key y ≤ key x) := by
  induction l with
  | nil => exact List.sorted_nil
  | cons a t ih => exact insertByKey_sorted key a _ ih

/-- C6: the top-reviewer list has at most ten entries and its counts
are sorted in descending order. -/
theorem top_users_len_sorted (df : List AnnRow) :
    (top_users df).length ≤ 10 ∧
    (top_users df).Sorted (fun p q : String × ℕ => q.2 ≤ p.2) := by
  constructor
  · have := List.length_take 10 (value_counts (df.map (fun r => r.profileName)))
    simp only [top_users]
    omega
  · have hs := sortByKeyDesc_sorted (fun p : String × ℕ => (p.2 : ℤ))
      ((firstOccs (df.map (fun r => r.profileName))).map
        (fun a => (a, (df.map (fun r => r.profileName)).count a)))
    have hs2 : (value_counts (df.map (fun r => r.profileName))).Sorted
        (fun p q : String × ℕ => q.2 ≤ p.2) := by
      refine List.Pairwise.imp ?_ hs
      intro p q hpq
      exact_mod_cast hpq
    exact hs2.sublist (List.take_sublist 10 _)

/-- Eleven annotated rows with strictly increasing dates, uploaded
oldest first; used as concrete input for the Recent Reviews claims. -/
def elevenRows : List AnnRow :=
  (List.range 11).map (fun i =>
    { score := 0, text := some "t", profileName := "p", summary := toString i,
      time := some (i : ℤ), sentiment_score := 0, sentiment := "Neutral" })

/-- The eleventh — newest — of `elevenRows`. -/
def newestRow : AnnRow :=
  { score := 0, text := some "t", profileName := "p", summary := "10",
    time := some 10, sentiment_score := 0, sentiment := "Neutral" }

/-- C7 counterexample: on a table of eleven rows uploaded oldest first,
the newest row is among the ten most recent by date yet absent from the
rendered Recent Reviews table, because line 92 takes `head(10)` in
upload order without sorting by date. -/
theorem recent_reviews_misses_newest :
    displayRow newestRow ∈ mostRecentTen elevenRows ∧
    displayRow newestRow ∉ recent_reviews elevenRows := by decide

/-- C7 amended: the Recent Reviews table is the display-column image of
the first ten rows of the table in upload order: selection commutes
with `head(10)`, the table has `min 10 n` rows, and its `i`-th entry
shows the summary, text, sentiment, rating and date of the table's
`i`-th row. -/
theorem recent_reviews_first_ten (df : List AnnRow) :
    recent_reviews df = (df.take 10).map displayRow ∧
    (recent_reviews df).length = min 10 df.length ∧
    (∀ i (h : i < (recent_reviews df).length) (h' : i < df.length),
      (recent_reviews df).get ⟨i, h⟩ = displayRow (df.get ⟨i, h'⟩)) := by
  refine ⟨by simp [recent_reviews, List.map_take], by simp [recent_reviews], fun i h h' => ?_⟩
  simp [recent_reviews, List.get_eq_getElem, List.getElem_take, List.getElem_map]

/-- Witness for C7's amended claim: the first displayed row of the
eleven-row table is the display image of its first data row. -/
theorem recent_reviews_first_ten_witness :
    (recent_reviews elevenRows).get ⟨0, by decide⟩ =
      displayRow (elevenRows.get ⟨0, by decide⟩) :=
  (recent_reviews_first_ten elevenRows).2.2 0 (by decide) (by decide)
